import Mathlib

/-!
Verification of the label-printer command encoder and transport dispatcher
of `node-dymo-printer2` (`src/dymo-services.js`) against its design document.

Modelling conventions for the shallow embedding of the JavaScript source:
* a `Buffer` is a `List Nat`; `Buffer.from` coerces each array entry to an
  octet, which we render as an explicit `% 256`;
* the assembled command stream is the list of appended chunks
  (`this.chunks : Buffer[]`), and `Buffer.concat` is `List.join`;
* optional string fields are `Option String`; JavaScript truthiness of such
  a field (`if (!x)`) is `jsTruthy`: `none` and the empty string are falsy;
* fallible operations return `Except`; a promise rejection or a synchronous
  `throw` is `Except.error`, carrying an error classified by `DymoError`
  following the design document's error taxonomy;
* external process execution and filesystem access are passed in as
  environment data (results of `execute`, temp-file names, ...), and the
  observable side effects of a transport are returned as a `List Effect`.
-/

set_option linter.unusedVariables false
set_option maxRecDepth 40000

/-! ### Error taxonomy (design document section 7) -/

/-- Error kinds of the design document, each throw/reject site of the source
is mapped to the kind the document assigns to it. -/
inductive DymoError where
  | invalidInput (msg : String)
  | configError (msg : String)
  | printerNotFound
  | unsupportedPlatform (platform : String)
  | connectionError (msg : String)
  | timeout
  | spoolerError (msg : String)
  | ioError (msg : String)
deriving DecidableEq

deriving instance DecidableEq for Except

/-! ### Printer command protocol constants (`dymo-services.js` lines 13-29) -/

/-- `CMD_RESET = Buffer.from([0x1b, "*".charCodeAt(0)])`. -/
def CMD_RESET : List Nat := [0x1b, 0x2a]

/-- `CMD_FULL_FORM_FEED = Buffer.from([0x1b, "E".charCodeAt(0)])`. -/
def CMD_FULL_FORM_FEED : List Nat := [0x1b, 0x45]

/-- `CMD_SHORT_FORM_FEED = Buffer.from([0x1b, "G".charCodeAt(0)])`. -/
def CMD_SHORT_FORM_FEED : List Nat := [0x1b, 0x47]

/-- `CMD_TEXT_SPEED_MODE = Buffer.from([0x1b, "h".charCodeAt(0)])`. -/
def CMD_TEXT_SPEED_MODE : List Nat := [0x1b, 0x68]

/-- `CMD_DENSITY_NORMAL = Buffer.from([0x1b, "e".charCodeAt(0)])`. -/
def CMD_DENSITY_NORMAL : List Nat := [0x1b, 0x65]

/-- `CMD_NO_DOT_TAB = Buffer.from([0x1b, "B".charCodeAt(0), 0])`. -/
def CMD_NO_DOT_TAB : List Nat := [0x1b, 0x42, 0]

/-- `CMD_START_ESC = Buffer.from(new Array(313).fill(0x1b))`. -/
def CMD_START_ESC : List Nat := List.replicate 313 0x1b

/-! ### Bitmap encoder (`printBitmap` / `init`, lines 141-216) -/

/-- Chunks appended by `init(labelLineWidth, labelLength)` (lines 178-216),
starting from the cleared buffer.  `Math.ceil(labelLineWidth / 8)` on natural
numbers is `(labelLineWidth + 7) / 8`; `Buffer.from` reduces that entry
modulo 256.  For the label length the source itself masks with `& 0xff`
(`labelLength >> 8` agrees with `Nat.shiftRight` for every realizable array
length), so the entries are already octets. -/
def initChunks (labelLineWidth labelLength : Nat) : List (List Nat) :=
  [CMD_START_ESC, CMD_RESET, CMD_NO_DOT_TAB,
   [0x1b, 0x44, ((labelLineWidth + 7) / 8) % 256],
   [0x1b, 0x4c, (labelLength >>> 8) &&& 0xff, labelLength &&& 0xff],
   CMD_TEXT_SPEED_MODE, CMD_DENSITY_NORMAL]

/-- `Buffer.from([0x16, ...imageBuffer[i]])` (line 157): marker byte `0x16`
followed by the row's entries, each coerced to an octet. -/
def frameRow (row : List Nat) : List Nat :=
  0x16 :: row.map (fun b => b % 256)

/-- Chunks appended by the copy loop of `printBitmap` (lines 154-165):
`for (count = 1; count <= printCount; count++)` appends every framed row and
then `CMD_FULL_FORM_FEED` on the last iteration, `CMD_SHORT_FORM_FEED`
otherwise.  Iteration `i` of `List.range printCount` plays `count = i + 1`. -/
def printLoop (rows : List (List Nat)) (printCount : Nat) : List (List Nat) :=
  ((List.range printCount).map (fun i =>
    rows.map frameRow ++
      [if i + 1 = printCount then CMD_FULL_FORM_FEED else CMD_SHORT_FORM_FEED])).flatten

/-- `printBitmap(imageBuffer, printCount)` (lines 141-168).  The bitmap is
`none` for `null`/`undefined`.  The state is the instance's `chunks` array;
the returned pair is (outcome, chunks after the call).  A successful call
hands `Buffer.concat(this.chunks)` to `sendDataToPrinter`; we return that
buffer in `Except.ok`.  The two validation `throw`s happen before
`this.init` (which performs `this.clear()`), so on failure the chunks are
the ones passed in. -/
def printBitmap (imageBuffer : Option (List (List Nat))) (printCount : Int)
    (chunks : List (List Nat)) : Except DymoError (List Nat) × List (List Nat) :=
  match imageBuffer with
  | none => (.error (.invalidInput "Empty imageBuffer, cannot print"), chunks)
  | some rows =>
    if rows.length = 0 then
      (.error (.invalidInput "Empty imageBuffer, cannot print"), chunks)
    else if printCount ≤ 0 then
      (.error (.invalidInput
        ("PrintCount cannot be 0 or a negative number: " ++ toString printCount)), chunks)
    else
      let labelLineWidth := (rows.headD []).length * 8
      let labelLength := rows.length
      let chunks1 := initChunks labelLineWidth labelLength ++ printLoop rows printCount.toNat
      (.ok chunks1.flatten, chunks1)

/-! ### Claim-side layout of the copy loop -/

/-- The copy structure as the design document words it: every copy is the
framed raster lines, followed by `CMD_SHORT_FORM_FEED` while more copies
remain and by `CMD_FULL_FORM_FEED` after the last copy. -/
def copiesLayout (frows : List (List Nat)) : Nat → List (List Nat)
  | 0 => []
  | 1 => frows ++ [CMD_FULL_FORM_FEED]
  | n + 2 => frows ++ [CMD_SHORT_FORM_FEED] ++ copiesLayout frows (n + 1)

theorem printLoop_eq_copiesLayout (rows : List (List Nat)) :
    ∀ n : Nat, 1 ≤ n → printLoop rows n = copiesLayout (rows.map frameRow) n := by
  intro n
  induction n with
  | zero => intro h; omega
  | succ n ih =>
    intro _
    rcases Nat.eq_zero_or_pos n with hn | hn
    · subst hn
      simp [printLoop, copiesLayout, List.range_succ]
    · obtain ⟨m, rfl⟩ : ∃ m, n = m + 1 := ⟨n - 1, by omega⟩
      rw [printLoop, List.range_succ_eq_map]
      simp only [List.map_cons, List.flatten_cons, List.map_map]
      have hhead : ¬ (0 + 1 = m + 1 + 1) := by omega
      rw [if_neg hhead]
      have hbody : ((fun i => rows.map frameRow ++
            [if i + 1 = m + 1 + 1 then CMD_FULL_FORM_FEED else CMD_SHORT_FORM_FEED]) ∘
              Nat.succ) =
          (fun i => rows.map frameRow ++
            [if i + 1 = m + 1 then CMD_FULL_FORM_FEED else CMD_SHORT_FORM_FEED]) := by
        funext i
        have h2 : (Nat.succ i + 1 = m + 1 + 1) ↔ (i + 1 = m + 1) := by omega
        simp [Function.comp_apply, h2]
      rw [hbody]
      have hih := ih hn
      rw [printLoop] at hih
      rw [hih]
      have hexp : copiesLayout (rows.map frameRow) (m + 1 + 1) =
          rows.map frameRow ++
            ([CMD_SHORT_FORM_FEED] ++ copiesLayout (rows.map frameRow) (m + 1)) := by
        simp [copiesLayout]
      rw [hexp, ← List.append_assoc]

theorem frameRow_eq (r : List Nat) (h : ∀ b ∈ r, b < 256) : frameRow r = 0x16 :: r := by
  unfold frameRow
  congr 1
  conv_rhs => rw [← List.map_id r]
  apply List.map_congr_left
  intro b hb2
  exact Nat.mod_eq_of_lt (h b hb2)

/-- On valid input, `printBitmap` clears the buffer and assembles the init
chunks followed by the copy loop; the buffer handed to the transport is
their concatenation. -/
theorem printBitmap_success (rows : List (List Nat)) (count : Int) (st : List (List Nat))
    (hne : rows ≠ []) (hc : 1 ≤ count) :
    printBitmap (some rows) count st =
      (.ok ((initChunks ((rows.headD []).length * 8) rows.length ++
              printLoop rows count.toNat).flatten),
       initChunks ((rows.headD []).length * 8) rows.length ++ printLoop rows count.toNat) := by
  have h1 : ¬ (rows.length = 0) := by simpa [List.length_eq_zero] using hne
  have h2 : ¬ (count ≤ 0) := by omega
  simp [printBitmap, h1, h2]

/-- C1: for every non-empty bitmap matrix and every copy count at least 1,
`printBitmap` assembles, in this order: 313 escape bytes, RESET,
NO_DOT_TAB, SET_BYTES_PER_LINE, SET_LABEL_LENGTH, TEXT_SPEED_MODE,
DENSITY_NORMAL, then for each copy every raster row prefixed with marker
byte 0x16 followed by the row's bytes verbatim, with SHORT_FORM_FEED after
every copy except the last, which is followed by FULL_FORM_FEED.  The
working buffer is cleared first: whatever chunks were accumulated before
the call, the assembled buffer is exactly this layout. -/
theorem printBitmap_assembly (rows : List (List Nat)) (count : Int) (st : List (List Nat))
    (hne : rows ≠ []) (hc : 1 ≤ count) (hb : ∀ r ∈ rows, ∀ b ∈ r, b < 256) :
    (printBitmap (some rows) count st).2 =
      [List.replicate 313 0x1b, [0x1b, 0x2a], [0x1b, 0x42, 0],
       [0x1b, 0x44, ((rows.headD []).length * 8 + 7) / 8 % 256],
       [0x1b, 0x4c, (rows.length >>> 8) &&& 0xff, rows.length &&& 0xff],
       [0x1b, 0x68], [0x1b, 0x65]] ++
        copiesLayout (rows.map (fun r => 0x16 :: r)) count.toNat ∧
    (printBitmap (some rows) count st).1 =
      .ok ((printBitmap (some rows) count st).2).flatten := by
  have hloop := printLoop_eq_copiesLayout rows count.toNat (by omega)
  have hmap : rows.map frameRow = rows.map (fun r => 0x16 :: r) :=
    List.map_congr_left (fun r hr => frameRow_eq r (hb r hr))
  rw [printBitmap_success rows count st hne hc]
  constructor
  · show initChunks ((rows.headD []).length * 8) rows.length ++
        printLoop rows count.toNat = _
    rw [hloop, hmap]
    rfl
  · rfl

/-- Witness for C1: a concrete two-row bitmap printed twice, starting from a
dirty one-chunk buffer. -/
theorem printBitmap_assembly_witness :
    (([[0x80], [0x01]] : List (List Nat)) ≠ [] ∧ (1 : Int) ≤ 2 ∧
      ∀ r ∈ ([[0x80], [0x01]] : List (List Nat)), ∀ b ∈ r, b < 256) ∧
    (printBitmap (some [[0x80], [0x01]]) 2 [[9]]).2 =
      [List.replicate 313 0x1b, [0x1b, 0x2a], [0x1b, 0x42, 0],
       [0x1b, 0x44, 1], [0x1b, 0x4c, 0, 2], [0x1b, 0x68], [0x1b, 0x65]] ++
        copiesLayout [[0x16, 0x80], [0x16, 0x01]] 2 ∧
    (printBitmap (some [[0x80], [0x01]]) 2 [[9]]).1 =
      .ok ((printBitmap (some [[0x80], [0x01]]) 2 [[9]]).2).flatten := by
  have h := printBitmap_assembly [[0x80], [0x01]] 2 [[9]]
    (by decide) (by decide) (by decide)
  refine ⟨⟨by decide, by decide, by decide⟩, ?_, h.2⟩
  rw [h.1]
  decide

/-- C5: the SET_LABEL_LENGTH chunk emitted for a matrix of `len` rows is
`1B 4C msb lsb` with `lsb = len & 0xFF` and `msb = (len >> 8) & 0xFF`, and
the big-endian split of 1052 is `(0x04, 0x1C)`. -/
theorem setLabelLength_bytes (rows : List (List Nat)) (count : Int) (st : List (List Nat))
    (hne : rows ≠ []) (hc : 1 ≤ count) :
    (printBitmap (some rows) count st).2.get? 4 =
      some [0x1b, 0x4c, (rows.length >>> 8) &&& 0xff, rows.length &&& 0xff] ∧
    ((1052 >>> 8) &&& 0xff) = 0x04 ∧ ((1052 : Nat) &&& 0xff) = 0x1c := by
  refine ⟨?_, by decide, by decide⟩
  rw [printBitmap_success rows count st hne hc]
  rfl

/-- Witness for C5: a 300-row matrix splits into msb 1, lsb 44. -/
theorem setLabelLength_bytes_witness :
    (List.replicate 300 ([0] : List Nat) ≠ [] ∧ (1 : Int) ≤ 1) ∧
    (printBitmap (some (List.replicate 300 [0])) 1 []).2.get? 4 =
      some [0x1b, 0x4c, 1, 44] := by
  refine ⟨⟨by decide, by decide⟩, ?_⟩
  have h := (setLabelLength_bytes (List.replicate 300 [0]) 1 []
    (by decide) (by decide)).1
  rw [h]
  decide

/-- C8 (amended): the SET_BYTES_PER_LINE parameter byte equals
`ceil((row[0].length * 8) / 8) = row[0].length` reduced modulo 256 (the
octet coercion of `Buffer.from`), depending only on the first row. -/
theorem setBytesPerLine_byte (rows : List (List Nat)) (count : Int) (st : List (List Nat))
    (hne : rows ≠ []) (hc : 1 ≤ count) :
    (printBitmap (some rows) count st).2.get? 3 =
      some [0x1b, 0x44, (rows.headD []).length % 256] := by
  have hdiv : ((rows.headD []).length * 8 + 7) / 8 = (rows.headD []).length := by omega
  rw [printBitmap_success rows count st hne hc]
  show (initChunks ((rows.headD []).length * 8) rows.length ++
      printLoop rows count.toNat).get? 3 = _
  rw [initChunks]
  simp
  omega

/-- Witness for C8: a matrix whose single row has 42 bytes yields parameter
byte 42. -/
theorem setBytesPerLine_byte_witness :
    (([List.replicate 42 (0 : Nat)] : List (List Nat)) ≠ [] ∧ (1 : Int) ≤ 1) ∧
    (printBitmap (some [List.replicate 42 0]) 1 []).2.get? 3 =
      some [0x1b, 0x44, 42] := by
  refine ⟨⟨by decide, by decide⟩, ?_⟩
  have h := setBytesPerLine_byte [List.replicate 42 0] 1 [] (by decide) (by decide)
  rw [h]
  decide

/-- Counterexample to C8 as stated: for a first row of 256 bytes the emitted
parameter byte is 0, not the row byte length 256 — `Buffer.from` truncates
array entries to octets. -/
theorem setBytesPerLine_byte_cx :
    (printBitmap (some [List.replicate 256 (0 : Nat)]) 1 []).2.get? 3 =
      some [0x1b, 0x44, 0] ∧
    (([List.replicate 256 (0 : Nat)] : List (List Nat)).headD []).length = 256 ∧
    (0 : Nat) ≠ 256 := by
  refine ⟨?_, by decide, by decide⟩
  decide

/-- C6: `printBitmap` fails with InvalidInput on an empty matrix (null or
zero rows) and on a copy count of 0 or below; the failure means the
transport dispatcher is never reached (a buffer is handed over only through
the `ok` result). -/
theorem printBitmap_invalidInput (img : Option (List (List Nat))) (count : Int)
    (st : List (List Nat))
    (h : img = none ∨ img = some [] ∨ count ≤ 0) :
    (∃ msg, (printBitmap img count st).1 = .error (.invalidInput msg)) ∧
    (printBitmap img count st).1.isOk = false := by
  rcases h with h | h | h
  · subst h
    exact ⟨⟨_, rfl⟩, rfl⟩
  · subst h
    exact ⟨⟨_, rfl⟩, rfl⟩
  · cases img with
    | none => exact ⟨⟨_, rfl⟩, rfl⟩
    | some rows =>
      by_cases hlen : rows.length = 0
      · have h1 : (printBitmap (some rows) count st).1 =
            .error (.invalidInput "Empty imageBuffer, cannot print") := by
          simp [printBitmap, hlen]
        exact ⟨⟨_, h1⟩, by rw [h1]; rfl⟩
      · have h1 : (printBitmap (some rows) count st).1 =
            .error (.invalidInput
              ("PrintCount cannot be 0 or a negative number: " ++ toString count)) := by
          simp [printBitmap, hlen, h]
        exact ⟨⟨_, h1⟩, by rw [h1]; rfl⟩

/-- Witness for C6: the null bitmap is rejected as InvalidInput. -/
theorem printBitmap_invalidInput_witness :
    ((none : Option (List (List Nat))) = none ∨
      (none : Option (List (List Nat))) = some [] ∨ (1 : Int) ≤ 0) ∧
    (∃ msg, (printBitmap none 1 [[7]]).1 = .error (.invalidInput msg)) ∧
    (printBitmap none 1 [[7]]).1.isOk = false :=
  ⟨Or.inl rfl, printBitmap_invalidInput none 1 [[7]] (Or.inl rfl)⟩

/-- C10: when `printBitmap` rejects its input, the instance's chunk buffer
is exactly what it was before the call — validation precedes the
buffer-clearing `init`. -/
theorem printBitmap_preserves_chunks (img : Option (List (List Nat))) (count : Int)
    (st : List (List Nat)) (h : (printBitmap img count st).1.isOk = false) :
    (printBitmap img count st).2 = st := by
  cases img with
  | none => rfl
  | some rows =>
    by_cases hlen : rows.length = 0
    · simp [printBitmap, hlen]
    · by_cases hcnt : count ≤ 0
      · simp [printBitmap, hlen, hcnt]
      · exfalso
        rw [printBitmap_success rows count st
          (by simpa [List.length_eq_zero] using hlen) (by omega)] at h
        simp [Except.isOk, Except.toBool] at h

/-- Witness for C10: a rejected call on a dirty buffer leaves the chunk
intact. -/
theorem printBitmap_preserves_chunks_witness :
    (printBitmap none 1 [[7]]).1.isOk = false ∧
    (printBitmap none 1 [[7]]).2 = [[7]] :=
  ⟨rfl, printBitmap_preserves_chunks none 1 [[7]] rfl⟩

/-! ### Configuration (`PrinterConfig`, `constructor`, `validateConfig`) -/

/-- `PrinterConfig` (lines 40-47): all fields optional, absent is `none`. -/
structure PrinterConfig where
  interface : Option String := none
  host : Option String := none
  port : Option Nat := none
  deviceId : Option String := none
  device : Option String := none
deriving DecidableEq

/-- JavaScript truthiness of an optional string field: `undefined` and the
empty string are falsy. -/
def jsTruthy : Option String → Bool
  | none => false
  | some s => s != ""

/-- `INTERFACES` of `validateConfig` (lines 303-308), in source order. -/
def INTERFACES : List String := ["NETWORK", "CUPS", "WINDOWS", "DEVICE"]

/-- `validateConfig(config)` (lines 302-312): throws when `config.interface`
is truthy and not a recognized value. -/
def validateConfig (config : PrinterConfig) : Except DymoError Unit :=
  if jsTruthy config.interface && !(INTERFACES.contains (config.interface.getD "")) then
    .error (.configError
      "Invalid interface, valid interfaces are: NETWORK, CUPS, WINDOWS, DEVICE")
  else
    .ok ()

/-- `new DymoServices(config)` (lines 91-96): with a configuration the
fields are copied onto the empty default and validated; without one the
default `{}` is kept. -/
def mkDymoServices (config : Option PrinterConfig) : Except DymoError PrinterConfig :=
  match config with
  | none => .ok {}
  | some cfg =>
    match validateConfig cfg with
    | .ok _ => .ok cfg
    | .error e => .error e

/-! ### Transports (lines 324-412) and their observable side effects -/

/-- Observable side effects of a transport call, in program order. -/
inductive Effect where
  | writeTempFile (path : String) (data : List Nat)
  | deleteTempFile (path : String)
  | execRawPrint (deviceId : Option String) (tempPath : String)
  | execLp (deviceId : String) (stdin : List Nat)
  | writeDevice (path : String) (data : List Nat)
deriving DecidableEq

/-- `sendDataToCupsPrinter(buffer, deviceId)` (lines 378-387): rejects with
a configuration error when `deviceId` is falsy, otherwise pipes the buffer
to `lp -d deviceId`; a failing `lp` surfaces as a spooler error. -/
def sendDataToCupsPrinter (buffer : List Nat) (deviceId : Option String)
    (execResult : Except String String) : Except DymoError Unit × List Effect :=
  if jsTruthy deviceId = false then
    (.error (.configError "Cannot print to CUPS printer, deviceId is not configured."), [])
  else
    match execResult with
    | .ok _ => (.ok (), [.execLp (deviceId.getD "") buffer])
    | .error e => (.error (.spoolerError e), [.execLp (deviceId.getD "") buffer])

/-- `sendDataToDevicePrinter(buffer, device)` (lines 354-367): rejects with
a configuration error when the device path is falsy, otherwise writes the
buffer to the device in binary mode; a write error surfaces as an I/O
error. -/
def sendDataToDevicePrinter (buffer : List Nat) (device : Option String)
    (writeResult : Except String Unit) : Except DymoError Unit × List Effect :=
  if jsTruthy device = false then
    (.error (.configError "Cannot write to device, the device name is empty"), [])
  else
    match writeResult with
    | .ok _ => (.ok (), [.writeDevice (device.getD "") buffer])
    | .error e => (.error (.ioError e), [.writeDevice (device.getD "") buffer])

/-- `sendDataToWindowsPrinter(buffer, deviceId)` (lines 398-412): writes the
buffer to a temp file, runs the RawPrint helper with `(deviceId, tmp)`, and
unlinks the temp file inside the success continuation; the failure
continuation (`.catch(reject)`) rejects with a spooler error without
unlinking.  The temp-file name and the helper outcome are environment
inputs. -/
def sendDataToWindowsPrinter (buffer : List Nat) (deviceId : Option String)
    (tmp : String) (execResult : Except String String) :
    Except DymoError Unit × List Effect :=
  match execResult with
  | .ok _ =>
    (.ok (), [.writeTempFile tmp buffer, .execRawPrint deviceId tmp, .deleteTempFile tmp])
  | .error e =>
    (.error (.spoolerError e), [.writeTempFile tmp buffer, .execRawPrint deviceId tmp])

/-! ### Discovery matching and the transport dispatcher (lines 225-271) -/

/-- `PrinterDescriptor`: `{deviceId, name}` as produced by discovery. -/
structure Printer where
  deviceId : String
  name : String
deriving DecidableEq

/-- Substring test on character lists (`indexOf(...) !== -1`). -/
def containsSub (pat : List Char) : List Char → Bool
  | [] => pat.isEmpty
  | c :: rest => pat.isPrefixOf (c :: rest) || containsSub pat rest

/-- The dispatcher's match callback (lines 235-237):
`printer.name && printer.name.toLowerCase().indexOf("dymo") !== -1`
(ASCII lower-casing, as for these printer names). -/
def isDymoPrinter (p : Printer) : Bool :=
  p.name != "" && containsSub "dymo".toList (p.name.toList.map Char.toLower)

/-- The first descriptor whose name matches, as `Array.prototype.find`
walks the list. -/
def firstDymo : List Printer → Option Printer
  | [] => none
  | p :: ps => if isDymoPrinter p then some p else firstDymo ps

/-- Environment of one dispatch: host platform, the outcome `listPrinters()`
would deliver, and the outcomes of the externally visible transport
operations. -/
structure DispatchEnv where
  isWindows : Bool
  listResult : Except DymoError (List Printer)
  networkResult : Except DymoError Unit
  cupsExecResult : Except String String
  windowsTmp : String
  windowsExecResult : Except String String
  deviceWriteResult : Except String Unit
deriving DecidableEq

/-- The four interface branches of `sendDataToPrinter` (lines 251-269),
reached once `printerInterface` is truthy; an unrecognized value hits the
final `throw`. -/
def dispatchConfigured (cfg : PrinterConfig) (env : DispatchEnv) (buffer : List Nat) :
    Except DymoError Unit :=
  if cfg.interface = some "NETWORK" then
    env.networkResult
  else if cfg.interface = some "CUPS" then
    (sendDataToCupsPrinter buffer cfg.deviceId env.cupsExecResult).1
  else if cfg.interface = some "WINDOWS" then
    (sendDataToWindowsPrinter buffer cfg.deviceId env.windowsTmp env.windowsExecResult).1
  else if cfg.interface = some "DEVICE" then
    (sendDataToDevicePrinter buffer cfg.device env.deviceWriteResult).1
  else
    .error (.configError ("Unknown printer interface configured: " ++ cfg.interface.getD ""))

/-- `sendDataToPrinter()` (lines 225-271).  With a falsy `interface` the
dispatcher lists printers, picks the first Dymo match, persists
`interface`/`deviceId` on the configuration and calls itself again; that
recursive call finds a truthy `interface`.  The returned pair is the
outcome together with the configuration after the call (the source mutates
`this.config` in place). -/
def sendDataToPrinter (cfg : PrinterConfig) (env : DispatchEnv) (buffer : List Nat) :
    Except DymoError Unit × PrinterConfig :=
  if jsTruthy cfg.interface then
    (dispatchConfigured cfg env buffer, cfg)
  else
    match env.listResult with
    | .error e => (.error e, cfg)
    | .ok printers =>
      match firstDymo printers with
      | none => (.error .printerNotFound, cfg)
      | some p =>
        sendDataToPrinter
          { cfg with
              interface := some (if env.isWindows then "WINDOWS" else "CUPS"),
              deviceId := some p.deviceId }
          env buffer
termination_by (if jsTruthy cfg.interface then 0 else 1)
decreasing_by
  cases env.isWindows <;> simp_all [jsTruthy]

/-! ### Claims about the transports and the dispatcher -/

/-- C2 (amended): the Windows transport writes the buffer to the temporary
file and invokes the raw-print helper with `(deviceId, tempFilePath)`, in
that order; the temporary file is deleted exactly when the helper succeeds
— on helper failure the rejection skips the cleanup and the file stays
behind. -/
theorem sendDataToWindowsPrinter_tempfile (buffer : List Nat) (deviceId : Option String)
    (tmp : String) (r : Except String String) :
    (sendDataToWindowsPrinter buffer deviceId tmp r).2.take 2 =
      [.writeTempFile tmp buffer, .execRawPrint deviceId tmp] ∧
    (Effect.deleteTempFile tmp ∈ (sendDataToWindowsPrinter buffer deviceId tmp r).2 ↔
      (sendDataToWindowsPrinter buffer deviceId tmp r).1.isOk = true) ∧
    (sendDataToWindowsPrinter buffer deviceId tmp r).1.isOk = r.isOk := by
  cases r with
  | ok v =>
    refine ⟨rfl, ?_, rfl⟩
    simp [sendDataToWindowsPrinter, Except.isOk, Except.toBool]
  | error e =>
    refine ⟨rfl, ?_, rfl⟩
    simp [sendDataToWindowsPrinter, Except.isOk, Except.toBool]

/-- Counterexample to C2 as stated: when the raw-print helper fails, the
temporary file is not deleted — cleanup happens only on the success path. -/
theorem sendDataToWindowsPrinter_cx :
    (sendDataToWindowsPrinter [1] (some "PrinterX") "tmp-a" (.error "helper failed")).1 =
      .error (.spoolerError "helper failed") ∧
    Effect.deleteTempFile "tmp-a" ∉
      (sendDataToWindowsPrinter [1] (some "PrinterX") "tmp-a" (.error "helper failed")).2 := by
  exact ⟨rfl, by decide⟩

/-- C3 (amended): the Cups transport rejects a falsy `deviceId` with a
configuration error before executing anything and the Device transport
rejects a falsy device path likewise, but the Windows transport performs no
`deviceId` validation: it invokes the raw-print helper even when the
`deviceId` is empty or missing. -/
theorem transport_deviceId_validation (buffer : List Nat) (d : Option String)
    (tmp : String) (r : Except String String) (w : Except String Unit)
    (hd : jsTruthy d = false) :
    (∃ m, sendDataToCupsPrinter buffer d r = (.error (.configError m), [])) ∧
    (∃ m, sendDataToDevicePrinter buffer d w = (.error (.configError m), [])) ∧
    Effect.execRawPrint d tmp ∈ (sendDataToWindowsPrinter buffer d tmp r).2 := by
  refine ⟨⟨"Cannot print to CUPS printer, deviceId is not configured.", ?_⟩,
    ⟨"Cannot write to device, the device name is empty", ?_⟩, ?_⟩
  · simp [sendDataToCupsPrinter, hd]
  · simp [sendDataToDevicePrinter, hd]
  · cases r <;> simp [sendDataToWindowsPrinter]

/-- Witness for C3 at an empty deviceId and device path. -/
theorem transport_deviceId_validation_witness :
    jsTruthy (some "") = false ∧
    ((∃ m, sendDataToCupsPrinter [] (some "") (.ok "") = (.error (.configError m), [])) ∧
     (∃ m, sendDataToDevicePrinter [] (some "") (.ok ()) = (.error (.configError m), [])) ∧
     Effect.execRawPrint (some "") "t" ∈
       (sendDataToWindowsPrinter [] (some "") "t" (.ok "")).2) :=
  ⟨by decide, transport_deviceId_validation [] (some "") "t" (.ok "") (.ok ()) (by decide)⟩

/-- Counterexample to C3 as stated: dispatching to the Windows transport
with an empty deviceId succeeds and invokes the helper; no ConfigError is
raised before the helper invocation. -/
theorem sendDataToWindowsPrinter_noValidation_cx :
    (sendDataToWindowsPrinter [] (some "") "tmp-b" (.ok "")).1 = .ok () ∧
    Effect.execRawPrint (some "") "tmp-b" ∈
      (sendDataToWindowsPrinter [] (some "") "tmp-b" (.ok "")).2 := by
  exact ⟨rfl, by decide⟩

/-- C7 (amended): construction with an explicit configuration fails with a
ConfigError exactly when the `interface` field is present, non-empty and
not one of NETWORK, CUPS, WINDOWS, DEVICE; an absent, empty or recognized
value constructs successfully (JavaScript truthiness exempts the empty
string from validation).  Construction is a pure check: no I/O or dispatch
is modelled or needed. -/
theorem mkDymoServices_validation (cfg : PrinterConfig) :
    (mkDymoServices (some cfg) = .ok cfg ∨
      ∃ m, mkDymoServices (some cfg) = .error (.configError m)) ∧
    (mkDymoServices (some cfg) = .ok cfg ↔
      (cfg.interface = none ∨ cfg.interface = some "" ∨
        ∃ s, cfg.interface = some s ∧ s ∈ INTERFACES)) := by
  cases hI : cfg.interface with
  | none =>
    constructor
    · left
      simp [mkDymoServices, validateConfig, jsTruthy, hI]
    · simp [mkDymoServices, validateConfig, jsTruthy, hI]
  | some s =>
    by_cases hs : s = ""
    · subst hs
      constructor
      · left
        simp [mkDymoServices, validateConfig, jsTruthy, hI]
      · simp [mkDymoServices, validateConfig, jsTruthy, hI]
    · by_cases hmem : s ∈ INTERFACES
      · constructor
        · left
          simp [mkDymoServices, validateConfig, jsTruthy, hI, hs, hmem]
        · constructor
          · intro _
            exact Or.inr (Or.inr ⟨s, rfl, hmem⟩)
          · intro _
            simp [mkDymoServices, validateConfig, jsTruthy, hI, hs, hmem]
      · have herr : mkDymoServices (some cfg) =
            .error (.configError
              "Invalid interface, valid interfaces are: NETWORK, CUPS, WINDOWS, DEVICE") := by
          simp [mkDymoServices, validateConfig, jsTruthy, hI, hs, hmem]
        constructor
        · right
          exact ⟨_, herr⟩
        · constructor
          · intro hok
            rw [herr] at hok
            exact Except.noConfusion hok
          · intro hrhs
            exfalso
            rcases hrhs with h | h | ⟨t, ht, hmt⟩
            · exact Option.noConfusion h
            · exact hs (Option.some.inj h)
            · exact hmem (Option.some.inj ht ▸ hmt)

/-- Counterexample to C7 as stated: an empty-string `interface` is present
and is not one of the four recognized values, yet construction succeeds. -/
theorem mkDymoServices_emptyInterface_cx :
    mkDymoServices (some { interface := some "" }) = .ok { interface := some "" } ∧
    (some "" : Option String) ≠ none ∧
    INTERFACES.contains "" = false := by
  exact ⟨by decide, by decide, by decide⟩

/-- With a truthy `interface` the dispatcher goes straight to the matching
transport branch and leaves the configuration untouched. -/
theorem sendDataToPrinter_configured (cfg : PrinterConfig) (env : DispatchEnv)
    (buffer : List Nat) (h : jsTruthy cfg.interface = true) :
    sendDataToPrinter cfg env buffer = (dispatchConfigured cfg env buffer, cfg) := by
  rw [sendDataToPrinter]
  simp [h]

/-- C4 (amended): with `interface` unset the dispatcher runs discovery. It
fails with PrinterNotFound when no descriptor's name contains "dymo"
case-insensitively; when discovery itself fails, the discovery's own error
is propagated unchanged (not PrinterNotFound).  On the first matching
descriptor it persists `interface` — WINDOWS on the Windows platform, CUPS
otherwise — and the matched deviceId onto the shared configuration and then
dispatches exactly once more, non-recursively, with that updated
configuration. -/
theorem sendDataToPrinter_discovery (cfg : PrinterConfig) (env : DispatchEnv)
    (buffer : List Nat) (hun : jsTruthy cfg.interface = false) :
    (∀ e, env.listResult = .error e →
      sendDataToPrinter cfg env buffer = (.error e, cfg)) ∧
    (∀ ps, env.listResult = .ok ps → firstDymo ps = none →
      sendDataToPrinter cfg env buffer = (.error .printerNotFound, cfg)) ∧
    (∀ ps p, env.listResult = .ok ps → firstDymo ps = some p →
      sendDataToPrinter cfg env buffer =
        (dispatchConfigured
          { cfg with
              interface := some (if env.isWindows then "WINDOWS" else "CUPS"),
              deviceId := some p.deviceId } env buffer,
         { cfg with
             interface := some (if env.isWindows then "WINDOWS" else "CUPS"),
             deviceId := some p.deviceId })) := by
  refine ⟨?_, ?_, ?_⟩
  · intro e he
    rw [sendDataToPrinter]
    simp [hun, he]
  · intro ps hps hnone
    rw [sendDataToPrinter]
    simp [hun, hps, hnone]
  · intro ps p hps hsome
    rw [sendDataToPrinter]
    simp only [hun, Bool.false_eq_true, if_false, hps, hsome]
    exact sendDataToPrinter_configured _ env buffer
      (by cases env.isWindows <;> simp [jsTruthy])

/-- Witness for C4: an unconfigured dispatch on a non-Windows host, where
discovery returns a non-matching printer followed by a Dymo printer,
persists CUPS and the second deviceId and dispatches once with them. -/
theorem sendDataToPrinter_discovery_witness :
    jsTruthy ({} : PrinterConfig).interface = false ∧
    sendDataToPrinter {}
      { isWindows := false,
        listResult := .ok [{ deviceId := "hp1", name := "HP LaserJet" },
                           { deviceId := "dymoq", name := "DYMO LabelWriter 450" }],
        networkResult := .ok (), cupsExecResult := .ok "",
        windowsTmp := "t", windowsExecResult := .ok "",
        deviceWriteResult := .ok () } [] =
      (dispatchConfigured { interface := some "CUPS", deviceId := some "dymoq" }
        { isWindows := false,
          listResult := .ok [{ deviceId := "hp1", name := "HP LaserJet" },
                             { deviceId := "dymoq", name := "DYMO LabelWriter 450" }],
          networkResult := .ok (), cupsExecResult := .ok "",
          windowsTmp := "t", windowsExecResult := .ok "",
          deviceWriteResult := .ok () } [],
       { interface := some "CUPS", deviceId := some "dymoq" }) := by
  refine ⟨by decide, ?_⟩
  have h := (sendDataToPrinter_discovery {}
    { isWindows := false,
      listResult := .ok [{ deviceId := "hp1", name := "HP LaserJet" },
                         { deviceId := "dymoq", name := "DYMO LabelWriter 450" }],
      networkResult := .ok (), cupsExecResult := .ok "",
      windowsTmp := "t", windowsExecResult := .ok "",
      deviceWriteResult := .ok () } [] (by decide)).2.2
    [{ deviceId := "hp1", name := "HP LaserJet" },
     { deviceId := "dymoq", name := "DYMO LabelWriter 450" }]
    { deviceId := "dymoq", name := "DYMO LabelWriter 450" } rfl (by decide)
  simpa using h

/-- Counterexample to C4 as stated: when discovery itself fails, the
dispatcher propagates the discovery error rather than failing with
PrinterNotFound. -/
theorem sendDataToPrinter_discoveryError_cx :
    sendDataToPrinter {}
      { isWindows := false,
        listResult := .error (.unsupportedPlatform "freebsd"),
        networkResult := .ok (), cupsExecResult := .ok "",
        windowsTmp := "t", windowsExecResult := .ok "",
        deviceWriteResult := .ok () } [] =
      (.error (.unsupportedPlatform "freebsd"), {}) ∧
    DymoError.unsupportedPlatform "freebsd" ≠ DymoError.printerNotFound := by
  refine ⟨?_, by decide⟩
  rw [sendDataToPrinter]
  simp [jsTruthy]

/-! ### Unix-like printer listing (`listPrintersMacLinux`, lines 421-461) -/

/-- `String.prototype.trim` on a character list (ASCII whitespace, as in
the spooler output this parses). -/
def trimChars (cs : List Char) : List Char :=
  ((cs.dropWhile Char.isWhitespace).reverse.dropWhile Char.isWhitespace).reverse

/-- `String.prototype.split("\n")`: JavaScript yields `[""]` for the empty
string and keeps empty pieces. -/
def splitLines : List Char → List (List Char)
  | [] => [[]]
  | c :: rest =>
    if c = '\n' then
      [] :: splitLines rest
    else
      match splitLines rest with
      | [] => [[c]]
      | l :: ls => (c :: l) :: ls

/-- `row.replace(/_+/g, " ")`: every run of underscores becomes one space.
The flag records whether the previous character was an underscore. -/
def collapseUnderscores (prevU : Bool) : List Char → List Char
  | [] => []
  | c :: rest =>
    if c = '_' then
      if prevU then collapseUnderscores true rest
      else ' ' :: collapseUnderscores true rest
    else c :: collapseUnderscores false rest

/-- The underscore-to-space fallback applied to an enumeration row. -/
def jsReplaceUnderscores (row : List Char) : List Char :=
  collapseUnderscores false row

/-- `/^description:/gi.test(line.trim())` (line 448), ASCII
case-insensitive. -/
def isDescriptionLine (line : List Char) : Bool :=
  "description:".toList.isPrefixOf ((trimChars line).map Char.toLower)

/-- `line.replace(/description:/gi, "")` (line 449): removes every
case-insensitive occurrence, scanning left to right. -/
def stripDescCI : List Char → List Char
  | [] => []
  | c :: rest =>
    if ((c :: rest).take 12).map Char.toLower = "description:".toList then
      stripDescCI ((c :: rest).drop 12)
    else
      c :: stripDescCI rest
termination_by cs => cs.length
decreasing_by
  · simp
    omega
  · simp

/-- The description extraction of lines 446-450: keep the lines matching
`/^description:/i`, strip the label, trim, and take the first non-empty
result. -/
def descriptionOf (stdout : String) : Option (List Char) :=
  (((splitLines stdout.toList).filter isDescriptionLine).map
    (fun line => trimChars (stripDescCI line))).find? (fun l => !l.isEmpty)

/-- `listPrintersMacLinux()` (lines 421-461).  `enumResult` is the outcome
of `lpstat -e`, `lookup` the per-deviceId outcome of `lpstat -l -p id` (an
`Except.error` is a rejected promise; `Promise.allSettled` hands each
printer its own settled result, in order).  Each non-blank enumeration row
becomes a descriptor whose name starts as the underscore-to-space fallback
and is overwritten by the extracted description when the lookup fulfilled
with non-empty output containing a non-empty description line. -/
def listPrintersMacLinux (lookup : String → Except String String)
    (enumResult : Except String String) : Except String (List Printer) :=
  match enumResult with
  | .error e => .error e
  | .ok stdout =>
    let printers := ((splitLines stdout.toList).filter
        (fun row => !(trimChars row).isEmpty)).map
      (fun row =>
        { deviceId := (trimChars row).asString,
          name := (trimChars (jsReplaceUnderscores row)).asString : Printer })
    let results := printers.map (fun printer => lookup printer.deviceId)
    .ok (List.zipWith
      (fun printer result =>
        match result with
        | .ok v =>
          if v != "" then
            match descriptionOf v with
            | some description => { printer with name := description.asString }
            | none => printer
          else printer
        | .error _ => printer)
      printers results)

theorem zipWith_map_self {α β γ : Type} (f : α → β → γ) (g : α → β) (l : List α) :
    List.zipWith f l (l.map g) = l.map (fun a => f a (g a)) := by
  induction l with
  | nil => rfl
  | cons a t ih => simp [ih]

theorem descriptionOf_empty : descriptionOf "" = none := rfl

/-- C9: for every enumeration output and every per-printer lookup
behaviour — including failing or empty lookups — the Unix-like listing
succeeds with one descriptor per non-blank enumeration row; a descriptor is
named by the description extracted from its printer's status output when a
non-empty description line exists, and otherwise keeps the fallback name,
the destination id with underscore runs turned to spaces. -/
theorem listPrintersMacLinux_names (lookup : String → Except String String)
    (stdout : String) :
    listPrintersMacLinux lookup (.ok stdout) =
      .ok (((splitLines stdout.toList).filter
          (fun row => !(trimChars row).isEmpty)).map
        (fun row =>
          let fallback : Printer :=
            { deviceId := (trimChars row).asString,
              name := (trimChars (jsReplaceUnderscores row)).asString }
          match lookup fallback.deviceId with
          | .error _ => fallback
          | .ok v =>
            match descriptionOf v with
            | some d => { fallback with name := d.asString }
            | none => fallback)) := by
  unfold listPrintersMacLinux
  dsimp only
  rw [zipWith_map_self, List.map_map]
  congr 1
  apply List.map_congr_left
  intro row hrow
  simp only [Function.comp_apply]
  cases hl : lookup (trimChars row).asString with
  | error e => rfl
  | ok v =>
    by_cases hv : v = ""
    · subst hv
      simp [descriptionOf_empty]
    · simp [hv]
